import Mathlib

/-!
Shallow embedding of the haystack typed scalar-value codec core
(src/src/core/haystack/py): the five Kind descriptors (Number, Ref,
Coord, Bin, XStr), their classification predicates, default values,
the three textual encodings (zinc grid, JSON, axon expression), the
Ref tag specialization, and the duration unit-inference patch from
src/src/core/haystack/py/__init__.py.

Pieces of the runtime that live outside src/ (the transpiled fan.*
classes: Str.to_code, ObjUtil.coerce, the value classes' own
stringification, the base Kind fallbacks) are modelled from the spec
and carry a doc comment starting "Modelled from the spec:".
-/

namespace Haxall

/-- Model of an IEEE double magnitude, split into the cases the codec
distinguishes: NaN, the two infinities, and finite values (every finite
double is a rational). -/
inductive FFloat where
  | nan : FFloat
  | posInf : FFloat
  | negInf : FFloat
  | finite : ℚ → FFloat
deriving DecidableEq, Repr

/-- Float.is_na_n: true exactly on NaN. -/
def FFloat.isNaN : FFloat → Bool
  | .nan => true
  | _ => false

/-- IEEE `==` comparison: NaN compares unequal to everything, including
itself; the infinities compare equal only to themselves. -/
def FFloat.ieeeEq : FFloat → FFloat → Bool
  | .nan, _ => false
  | _, .nan => false
  | .posInf, .posInf => true
  | .posInf, _ => false
  | .negInf, .negInf => true
  | .negInf, _ => false
  | .finite a, .finite b => a == b
  | .finite _, _ => false

/-- haystack::Number — magnitude plus optional resolved unit (the unit is
only carried along here; no claim inspects its structure, so it is kept
as its symbol string). -/
structure Number where
  float : FFloat
  unit : Option String
deriving DecidableEq, Repr

/-- xeto::Ref — id plus optional display string. -/
structure RefV where
  id : String
  dis : Option String
deriving DecidableEq, Repr

/-- haystack::Coord — latitude/longitude. -/
structure Coord where
  lat : ℚ
  lng : ℚ
deriving DecidableEq, Repr

/-- haystack::Bin — mime type string. -/
structure Bin where
  mime : String
deriving DecidableEq, Repr

/-- haystack::XStr — type name plus string payload (fields `_type_` and
`_val` in the Python source). -/
structure XStr where
  type_ : String
  val : String
deriving DecidableEq, Repr

/-- The closed set of Kind descriptors defined under src/. -/
inductive KindId where
  | number : KindId
  | ref : KindId
  | coord : KindId
  | bin : KindId
  | xstr : KindId
deriving DecidableEq, Repr

/-- The scalar-value sum over the five variants. -/
inductive Val where
  | number : Number → Val
  | ref : RefV → Val
  | coord : Coord → Val
  | bin : Bin → Val
  | xstr : XStr → Val
deriving DecidableEq, Repr

/-- Runtime variant of a value, i.e. which Kind's backing type it is. -/
def Val.kindId : Val → KindId
  | .number _ => .number
  | .ref _ => .ref
  | .coord _ => .coord
  | .bin _ => .bin
  | .xstr _ => .xstr

/-! ## Classification predicates

The base Kind defaults every predicate to false; the overrides present
under src/ are: NumberKind.is_number = True, RefKind.isRef = True,
XStrKind.is_x_str = True, and BinKind.is_x_str = True (BinKind.py
lines 26-27). CoordKind overrides none of them. -/

/-- isNumber: overridden true only by NumberKind. -/
def KindId.isNumber : KindId → Bool
  | .number => true
  | _ => false

/-- isRef: overridden true only by RefKind. -/
def KindId.isRef : KindId → Bool
  | .ref => true
  | _ => false

/-- isXStr: overridden true by XStrKind and also by BinKind
(BinKind.py lines 26-27). -/
def KindId.isXStr : KindId → Bool
  | .xstr => true
  | .bin => true
  | _ => false

/-! ## Duration unit inference

From src/src/core/haystack/py/__init__.py, _make_duration_body_fixed:
when no unit is given, the duration's absolute tick count is compared
with compare_lt against Duration.make thresholds to pick the unit. -/

/-- The five duration units the inference chooses among. -/
inductive DurUnit where
  | ms : DurUnit
  | sec : DurUnit
  | mins : DurUnit
  | hr : DurUnit
  | day : DurUnit
deriving DecidableEq, Repr

/-- Unit selection of _make_duration_body_fixed for a unit-less duration,
over its signed tick count: abs_dur = dur.abs_(), then the if/elif chain
of strict compare_lt tests against 1e9, 6e10, 3.6e12, 8.64e13 ticks. -/
def durationUnit (ticks : Int) : DurUnit :=
  if |ticks| < 1000000000 then .ms
  else if |ticks| < 60000000000 then .sec
  else if |ticks| < 3600000000000 then .mins
  else if |ticks| < 86400000000000 then .hr
  else .day

/-! ## String literal escaping (sys::Str.to_code)

Str.to_code lives in the transpiled fan.sys runtime, outside src/. -/

/-- Modelled from the spec: the standard string-literal escaping rules of
Str.to_code — quotes and backslashes escaped, non-printable characters
escaped — for one character. Str.to_code itself is not under src/. -/
def escChar (c : Char) : String :=
  if c = '"' then "\\\""
  else if c = '\\' then "\\\\"
  else if c = '\n' then "\\n"
  else if c = '\r' then "\\r"
  else if c = '\t' then "\\t"
  else if c.toNat < 32 then "\\u" ++ hexByte c.toNat
  else String.singleton c
where
  hexDigit (n : Nat) : String :=
    String.singleton (if n < 10 then Char.ofNat (48 + n) else Char.ofNat (87 + n))
  hexByte (n : Nat) : String :=
    "00" ++ hexDigit (n / 16 % 16) ++ hexDigit (n % 16)

/-- Modelled from the spec: Str.to_code wraps the string in double quotes
with each character escaped by the standard string-literal rules. -/
def strToCode (s : String) : String :=
  "\"" ++ String.join (s.toList.map escChar) ++ "\""

/-! ## Type coercion (sys::ObjUtil.coerce)

Every encoder under src/ first coerces its argument to the Kind's
backing type; ObjUtil.coerce itself is in the transpiled runtime. -/

/-- Modelled from the spec: ObjUtil.coerce to haystack::Number surfaces a
type-mismatch failure synchronously when the value's runtime variant is
not Number; never silently coerced. -/
def coerceNumber : Val → Except String Number
  | .number n => .ok n
  | _ => .error "type-mismatch: haystack::Number"

/-- Modelled from the spec: ObjUtil.coerce to xeto::Ref; type-mismatch
failure on any other variant. -/
def coerceRef : Val → Except String RefV
  | .ref r => .ok r
  | _ => .error "type-mismatch: xeto::Ref"

/-- Modelled from the spec: ObjUtil.coerce to haystack::Coord. -/
def coerceCoord : Val → Except String Coord
  | .coord c => .ok c
  | _ => .error "type-mismatch: haystack::Coord"

/-- Modelled from the spec: ObjUtil.coerce to haystack::Bin. -/
def coerceBin : Val → Except String Bin
  | .bin b => .ok b
  | _ => .error "type-mismatch: haystack::Bin"

/-- Modelled from the spec: ObjUtil.coerce to haystack::XStr. -/
def coerceXStr : Val → Except String XStr
  | .xstr x => .ok x
  | _ => .error "type-mismatch: haystack::XStr"

/-! ## Variant-owned stringification (outside src/) -/

/-- Modelled from the spec: a finite magnitude renders as its numeric
token; the exact digits are the variant's own business and no claim
depends on them. -/
def FFloat.toStr : FFloat → String
  | .nan => "NaN"
  | .posInf => "INF"
  | .negInf => "-INF"
  | .finite q => toString q

/-- Modelled from the spec: ObjUtil.to_str of a Number is the variant's
default textual form — numeric token with the unit symbol suffixed when
present. -/
def Number.toStr (n : Number) : String :=
  n.float.toStr ++ (match n.unit with | none => "" | some u => u)

/-- Modelled from the spec: Number's own JSON rule — a numeric token or
unit-suffixed string, defined by the variant, not the Kind. -/
def Number.toJson (n : Number) : String :=
  "n:" ++ Number.toStr n

/-- Modelled from the spec: Ref.toZinc produces the @-prefixed reference
code form — id plus, if present, a quoted display suffix. -/
def RefV.toZinc (r : RefV) : String :=
  match r.dis with
  | none => "@" ++ r.id
  | some d => "@" ++ r.id ++ " " ++ strToCode d

/-- Modelled from the spec: Ref.toCode is the reference code form, which
the spec states is the same as the grid encoding — @-prefixed id plus,
if present, a quoted display suffix. -/
def RefV.toCode (r : RefV) : String :=
  match r.dis with
  | none => "@" ++ r.id
  | some d => "@" ++ r.id ++ " " ++ strToCode d

/-- Modelled from the spec: Ref's own canonical JSON string form, an
r:-prefixed compact id string. -/
def RefV.toJson (r : RefV) : String :=
  "r:" ++ r.id

/-- Modelled from the spec: Coord's canonical lat,lng decimal pair
string rule. -/
def Coord.toLatLgnStr (c : Coord) : String :=
  toString c.lat ++ "," ++ toString c.lng

/-- Modelled from the spec: generic default stringification of a value,
used by the inherited grid path of Kinds that do not override
valToZinc. -/
def Val.defaultStr : Val → String
  | .number n => n.toStr
  | .ref r => r.toZinc
  | .coord c => c.toLatLgnStr
  | .bin b => b.mime
  | .xstr x => x.type_ ++ "(" ++ strToCode x.val ++ ")"

/-! ## Kind encoders under src/

Each function below is the direct translation of the corresponding
method of NumberKind.py, RefKind.py, CoordKind.py, BinKind.py,
XStrKind.py; fallible coercion makes them Except-valued. -/

/-- NumberKind.val_to_axon: coerce to Number, take its float, then the
if-chain — NaN first, then positive infinity, then negative infinity
(IEEE ==), else ObjUtil.to_str of the value. -/
def NumberKind.valToAxon (val : Val) : Except String String := do
  let n ← coerceNumber val
  let f := n.float
  if f.isNaN then pure "nan()"
  else if f.ieeeEq .posInf then pure "posInf()"
  else if f.ieeeEq .negInf then pure "negInf()"
  else pure (Number.toStr n)

/-- NumberKind.val_to_json: coerce to Number, then its own to_json. -/
def NumberKind.valToJson (val : Val) : Except String String := do
  let n ← coerceNumber val
  pure n.toJson

/-- RefKind.valToZinc: coerce to Ref, then toZinc. -/
def RefKind.valToZinc (val : Val) : Except String String := do
  let r ← coerceRef val
  pure r.toZinc

/-- RefKind.valToJson: coerce to Ref, then toJson. -/
def RefKind.valToJson (val : Val) : Except String String := do
  let r ← coerceRef val
  pure r.toJson

/-- RefKind.valToAxon: coerce to Ref, then toCode. -/
def RefKind.valToAxon (val : Val) : Except String String := do
  let r ← coerceRef val
  pure r.toCode

/-- CoordKind.valToJson: "c:" plus the lat,lng string. -/
def CoordKind.valToJson (val : Val) : Except String String := do
  let c ← coerceCoord val
  pure ("c:" ++ c.toLatLgnStr)

/-- CoordKind.valToAxon: "coord(" plus the lat,lng string plus ")". -/
def CoordKind.valToAxon (val : Val) : Except String String := do
  let c ← coerceCoord val
  pure ("coord(" ++ c.toLatLgnStr ++ ")")

/-- BinKind.val_to_zinc: "Bin(" plus the quoted mime plus ")". -/
def BinKind.valToZinc (val : Val) : Except String String := do
  let b ← coerceBin val
  pure ("Bin(" ++ strToCode b.mime ++ ")")

/-- BinKind.val_to_json: "b:" plus the raw mime string, unescaped. -/
def BinKind.valToJson (val : Val) : Except String String := do
  let b ← coerceBin val
  pure ("b:" ++ b.mime)

/-- BinKind.val_to_axon: the xstr-shaped literal with no space after the
comma, quoting the mime. -/
def BinKind.valToAxon (val : Val) : Except String String := do
  let b ← coerceBin val
  pure ("xstr(\"Bin\"," ++ strToCode b.mime ++ ")")

/-- XStrKind.val_to_json: "x:" plus type name plus ":" plus payload,
neither field escaped. -/
def XStrKind.valToJson (val : Val) : Except String String := do
  let x ← coerceXStr val
  pure ("x:" ++ x.type_ ++ ":" ++ x.val)

/-- XStrKind.val_to_axon: "xstr(" plus quoted type name plus ", " plus
quoted payload plus ")". -/
def XStrKind.valToAxon (val : Val) : Except String String := do
  let x ← coerceXStr val
  pure ("xstr(" ++ strToCode x.type_ ++ ", " ++ strToCode x.val ++ ")")

/-! ## Base Kind fallbacks (outside src/) -/

/-- Modelled from the spec: the generic check that the runtime variant
matches the invoked Kind, shared by the inherited encoder paths —
type-mismatch failures are reported synchronously, never swallowed. -/
def coerceKind (k : KindId) (v : Val) : Except String Val :=
  if v.kindId = k then .ok v else .error "type-mismatch"

/-- Modelled from the spec: base Kind.valToZinc, the inherited generic
stringification used by Kinds without a zinc override (Number, Coord,
XStr), with the type-mismatch failure mode of the grid encoding. -/
def Kind.baseValToZinc (k : KindId) (val : Val) : Except String String := do
  let v ← coerceKind k val
  pure v.defaultStr

/-! ## Default values

The base Kind.def_val invokes the backing type's default constructor,
which fails for all five variants here (mandatory constructor
arguments); each Kind under src/ overrides def_val to delegate to the
variant's canonical default factory. -/

/-- Modelled from the spec: the generic default-constructor fallback of
the base Kind — an unsupported-construction failure (none) for every
variant whose constructor takes mandatory arguments, which is all five
of these. -/
def Kind.genericDefVal : KindId → Option Val :=
  fun _ => none

/-- Modelled from the spec: Number.def_val, the variant-owned canonical
default instance. -/
def Number.defVal : Number := ⟨.finite 0, none⟩

/-- Modelled from the spec: Ref.defVal, the variant-owned canonical
default instance. -/
def RefV.defVal : RefV := ⟨"null", none⟩

/-- Modelled from the spec: Coord.defVal, the variant-owned canonical
default instance. -/
def Coord.defVal : Coord := ⟨0, 0⟩

/-- Modelled from the spec: Bin.def_val, the variant-owned canonical
default instance. -/
def Bin.defVal : Bin := ⟨"text/plain"⟩

/-- Modelled from the spec: XStr.def_val, the variant-owned canonical
default instance. -/
def XStr.defVal : XStr := ⟨"XStr", ""⟩

/-- Kind.defVal as overridden under src/: every one of the five Kinds
replaces the generic fallback with the variant's canonical default. -/
def Kind.defVal : KindId → Option Val
  | .number => some (.number Number.defVal)
  | .ref => some (.ref RefV.defVal)
  | .coord => some (.coord Coord.defVal)
  | .bin => some (.bin Bin.defVal)
  | .xstr => some (.xstr XStr.defVal)

/-! ## Ref tag specialization (RefKind.py) -/

/-- The RefKind descriptor state: Kind name, display name, and the
optional specialization tag (field _tag in RefKind.py). -/
structure RefKindS where
  name : String
  displayName : String
  tag : Option String
deriving DecidableEq, Repr

/-- RefKind.make / RefKind.__init__: name "Ref", displayName defaulting
to the name (the base Kind constructor's default), _tag = None. -/
def RefKindS.base : RefKindS :=
  ⟨"Ref", "Ref", none⟩

/-- RefKind.makeTag: allocates a fresh instance, runs _ctor_init, then
_makeTag_body sets name "Ref", displayName "Ref<" + tag + ">", and
_tag = tag. -/
def RefKindS.makeTag (tag : String) : RefKindS :=
  ⟨"Ref", "Ref<" ++ tag ++ ">", some tag⟩

/-- RefKind.toTagOf: returns makeTag(tag); a new instance, the receiver
untouched. -/
def RefKindS.toTagOf (_k : RefKindS) (tag : String) : RefKindS :=
  RefKindS.makeTag tag

/-! ## Encode dispatch over the three formats -/

/-- The three wire formats of the codec. -/
inductive Format where
  | grid : Format
  | json : Format
  | axon : Format
deriving DecidableEq, Repr

/-- Kind.encode(value, format): dispatch to the per-kind encoder of the
chosen format; Kinds lacking a grid override use the inherited base
path. -/
def encode (k : KindId) (fmt : Format) (v : Val) : Except String String :=
  match k, fmt with
  | .number, .grid => Kind.baseValToZinc .number v
  | .number, .json => NumberKind.valToJson v
  | .number, .axon => NumberKind.valToAxon v
  | .ref, .grid => RefKind.valToZinc v
  | .ref, .json => RefKind.valToJson v
  | .ref, .axon => RefKind.valToAxon v
  | .coord, .grid => Kind.baseValToZinc .coord v
  | .coord, .json => CoordKind.valToJson v
  | .coord, .axon => CoordKind.valToAxon v
  | .bin, .grid => BinKind.valToZinc v
  | .bin, .json => BinKind.valToJson v
  | .bin, .axon => BinKind.valToAxon v
  | .xstr, .grid => Kind.baseValToZinc .xstr v
  | .xstr, .json => XStrKind.valToJson v
  | .xstr, .axon => XStrKind.valToAxon v

/-! ## Claim theorems -/

/-- C1: NumberKind.valToAxon special-cases numeric sentinels — a NaN
magnitude yields "nan()", positive infinity yields "posInf()", negative
infinity yields "negInf()", and every finite magnitude yields the
value's default textual form; the NaN test is the first branch of the
embedded if-chain, before either infinity comparison. -/
theorem c1_number_axon_sentinels :
    ∀ u : Option String,
      NumberKind.valToAxon (Val.number ⟨FFloat.nan, u⟩) = Except.ok "nan()" ∧
      NumberKind.valToAxon (Val.number ⟨FFloat.posInf, u⟩) = Except.ok "posInf()" ∧
      NumberKind.valToAxon (Val.number ⟨FFloat.negInf, u⟩) = Except.ok "negInf()" ∧
      ∀ q : ℚ, NumberKind.valToAxon (Val.number ⟨FFloat.finite q, u⟩) =
        Except.ok (Number.toStr ⟨FFloat.finite q, u⟩) := by
  intro u
  exact ⟨rfl, rfl, rfl, fun _ => rfl⟩

/-- C2: unit inference for unit-less durations compares the absolute tick
count against the fixed thresholds 1e9, 6e10, 3.6e12, 8.64e13 to choose
among ms, sec, mins, hr, day; negating the tick count never changes the
selected unit. -/
theorem c2_duration_unit_abs :
    ∀ t : Int,
      durationUnit (-t) = durationUnit t ∧
      (durationUnit t = DurUnit.ms ↔ |t| < 1000000000) ∧
      (durationUnit t = DurUnit.sec ↔ 1000000000 ≤ |t| ∧ |t| < 60000000000) ∧
      (durationUnit t = DurUnit.mins ↔ 60000000000 ≤ |t| ∧ |t| < 3600000000000) ∧
      (durationUnit t = DurUnit.hr ↔ 3600000000000 ≤ |t| ∧ |t| < 86400000000000) ∧
      (durationUnit t = DurUnit.day ↔ 86400000000000 ≤ |t|) := by
  intro t
  have habs : |(-t : Int)| = |t| := abs_neg t
  unfold durationUnit
  rw [habs]
  refine ⟨rfl, ?_, ?_, ?_, ?_, ?_⟩ <;>
    · split_ifs with h1 h2 h3 h4 <;> simp <;> omega

/-- C2 witness: a positive and a structurally negative duration of equal
magnitude (90 seconds in ticks) select the same unit, and the thresholds
classify it as mins. -/
theorem c2_duration_unit_abs_witness :
    durationUnit (-90000000000) = durationUnit 90000000000 ∧
    (durationUnit 90000000000 = DurUnit.mins ↔
      60000000000 ≤ |(90000000000 : Int)| ∧ |(90000000000 : Int)| < 3600000000000) :=
  ⟨(c2_duration_unit_abs 90000000000).1, (c2_duration_unit_abs 90000000000).2.2.2.1⟩

/-- C3: every one of the five registered Kinds overrides the generic
default-constructor fallback (which fails, i.e. yields none, for all of
them) with a variant-owned canonical default, so defVal always returns
a value whose variant matches the Kind. -/
theorem c3_def_val_total :
    ∀ k : KindId,
      Kind.genericDefVal k = none ∧
      ∃ v : Val, Kind.defVal k = some v ∧ v.kindId = k := by
  intro k
  cases k <;> exact ⟨rfl, _, rfl, rfl⟩

/-- C4: toTagOf builds a new Ref Kind whose tag is the given string and
whose display name is "Ref<" + tag + ">", for any receiver; the base Ref
kind's own tag stays absent. -/
theorem c4_to_tag_of :
    ∀ (k : RefKindS) (t : String),
      (k.toTagOf t).tag = some t ∧
      (k.toTagOf t).displayName = "Ref<" ++ t ++ ">" ∧
      RefKindS.base.tag = none := by
  intro k t
  exact ⟨rfl, rfl, rfl⟩

/-- C5 counterexample: the claim that isXStr is true exactly for the XStr
kind fails — BinKind also overrides isXStr to true, and Bin is not the
XStr kind. -/
theorem c5_counterexample :
    KindId.isXStr KindId.bin = true ∧ KindId.bin ≠ KindId.xstr := by
  decide

/-- C5 amended: isNumber is true exactly for the Number kind and isRef
exactly for the Ref kind, but isXStr — false by default — is overridden
true by both the XStr kind and the Bin kind, so it holds exactly on that
pair. -/
theorem c5_predicates_amended :
    ∀ k : KindId,
      (k.isNumber = true ↔ k = KindId.number) ∧
      (k.isRef = true ↔ k = KindId.ref) ∧
      (k.isXStr = true ↔ (k = KindId.xstr ∨ k = KindId.bin)) := by
  intro k
  cases k <;> refine ⟨⟨?_, ?_⟩, ⟨?_, ?_⟩, ⟨?_, ?_⟩⟩ <;> decide

/-- C6: for every Ref value, with or without a display string, the axon
expression encoding (via Ref.toCode) produces the same string as the
zinc grid encoding (via Ref.toZinc). -/
theorem c6_ref_axon_eq_zinc :
    ∀ r : RefV, RefKind.valToAxon (Val.ref r) = RefKind.valToZinc (Val.ref r) := by
  intro r
  cases r with
  | mk id dis => cases dis <;> rfl

/-- C7: for every Bin, the JSON encoding is "b:" plus the raw mime string
unescaped and the axon encoding is the xstr literal quoting the mime with
no space after the comma; on Bin("text/plain") these evaluate to
"b:text/plain" and "xstr(\"Bin\",\"text/plain\")". -/
theorem c7_bin_encodings :
    (∀ b : Bin,
      encode KindId.bin Format.json (Val.bin b) = Except.ok ("b:" ++ b.mime) ∧
      encode KindId.bin Format.axon (Val.bin b) =
        Except.ok ("xstr(\"Bin\"," ++ strToCode b.mime ++ ")")) ∧
    encode KindId.bin Format.json (Val.bin ⟨"text/plain"⟩) = Except.ok "b:text/plain" ∧
    encode KindId.bin Format.axon (Val.bin ⟨"text/plain"⟩) =
      Except.ok "xstr(\"Bin\",\"text/plain\")" :=
  ⟨fun _ => ⟨rfl, rfl⟩, rfl, rfl⟩

/-- C8: for every XStr, the JSON encoding is "x:" plus type name plus ":"
plus payload with neither field escaped, and the axon encoding is
"xstr(" plus the quoted type name plus ", " plus the quoted payload plus
")"; on XStr("Type","payload") these evaluate to "x:Type:payload" and
"xstr(\"Type\", \"payload\")". -/
theorem c8_xstr_encodings :
    (∀ x : XStr,
      encode KindId.xstr Format.json (Val.xstr x) =
        Except.ok ("x:" ++ x.type_ ++ ":" ++ x.val) ∧
      encode KindId.xstr Format.axon (Val.xstr x) =
        Except.ok ("xstr(" ++ strToCode x.type_ ++ ", " ++ strToCode x.val ++ ")")) ∧
    encode KindId.xstr Format.json (Val.xstr ⟨"Type", "payload"⟩) =
      Except.ok "x:Type:payload" ∧
    encode KindId.xstr Format.axon (Val.xstr ⟨"Type", "payload"⟩) =
      Except.ok "xstr(\"Type\", \"payload\")" :=
  ⟨fun _ => ⟨rfl, rfl⟩, rfl, rfl⟩

/-- C9: encoding a value whose runtime variant does not match the invoked
Kind reports a type-mismatch failure in every format — grid, JSON and
axon — and never returns an ok string. -/
theorem c9_type_mismatch :
    ∀ (k : KindId) (fmt : Format) (v : Val),
      v.kindId ≠ k → ∃ e, encode k fmt v = Except.error e := by
  intro k fmt v h
  cases k <;> cases fmt <;> cases v <;>
    first
      | exact absurd rfl h
      | exact ⟨_, rfl⟩

/-- C9 witness: invoking the Number kind's JSON encoder on a Ref value is
a variant mismatch and yields an error. -/
theorem c9_type_mismatch_witness :
    Val.kindId (Val.ref ⟨"a", none⟩) ≠ KindId.number ∧
    ∃ e, encode KindId.number Format.json (Val.ref ⟨"a", none⟩) = Except.error e :=
  ⟨by decide, c9_type_mismatch KindId.number Format.json (Val.ref ⟨"a", none⟩) (by decide)⟩

/-- C10: the duration-unit thresholds are strict upper bounds — a tick
count of absolute value exactly 1e9 selects sec, exactly 6e10 selects
mins, exactly 3.6e12 selects hr, and exactly 8.64e13 selects day. -/
theorem c10_duration_thresholds :
    ∀ t : Int,
      (|t| = 1000000000 → durationUnit t = DurUnit.sec) ∧
      (|t| = 60000000000 → durationUnit t = DurUnit.mins) ∧
      (|t| = 3600000000000 → durationUnit t = DurUnit.hr) ∧
      (|t| = 86400000000000 → durationUnit t = DurUnit.day) := by
  intro t
  refine ⟨?_, ?_, ?_, ?_⟩ <;> intro h <;> simp only [durationUnit, h] <;> decide

/-- C10 witness: the four exact threshold magnitudes, one of them
negative, select sec, mins, hr, day respectively. -/
theorem c10_duration_thresholds_witness :
    durationUnit 1000000000 = DurUnit.sec ∧
    durationUnit (-60000000000) = DurUnit.mins ∧
    durationUnit 3600000000000 = DurUnit.hr ∧
    durationUnit 86400000000000 = DurUnit.day :=
  ⟨(c10_duration_thresholds 1000000000).1 (by decide),
   (c10_duration_thresholds (-60000000000)).2.1 (by decide),
   (c10_duration_thresholds 3600000000000).2.2.1 (by decide),
   (c10_duration_thresholds 86400000000000).2.2.2 (by decide)⟩

end Haxall
